import Mathlib

/-!
Shallow embedding of the bbot scan event dispatcher
(`src/bbot/scanner/manager.py`, class `ScanManager`).

Events live in an arena (`ManagerState.store : Nat → Event`); an event's
`source` field is the arena id of its parent, so that the Python object
aliasing (mutating `event.source` mutates a shared object) is captured.
Queues and dedup-tracker sets are plain lists; `put_nowait` appends.
Delivery to a module's `queue_event` sink is recorded in `deliveries`.
-/

set_option autoImplicit false

/-- Modelled from the spec: the Event data model (§3).  The Event class is not
under `src/`; this record keeps the attributes the dispatcher reads or writes.
`source` is the arena id of the parent event (`none` models Python `None`),
`module` is the producer module's name (`none` models Python `None`).
Attribute assignment is modelled as a plain record update, following the
spec's own description of the updates (for instance §4.7:
"set `event.scope_distance = event.source.scope_distance + 1`"). -/
structure Event where
  typ : String
  data : String
  source : Option Nat
  module : Option String
  scope_distance : Int
  internal : Bool
  graph_important : Bool
  always_emit : Bool
  dummy : Bool
  tags : List String
  host : Option String
  module_priority : Int
  web_spider_distance : Int

/-- Modelled from the spec: the ScanModule contract (§6).  ScanModule implementations
are not under `src/`; only the attributes the dispatcher reads are kept.
`suppress_dupes = none` models an absent attribute (the dispatcher reads it
with `getattr(..., True)`); `outgoing_dedup_hash = none` models a module that
does not define `_outgoing_dedup_hash` (an `AttributeError` in the source). -/
structure ScanModule where
  name : String
  priority : Int
  hook : Bool
  suppress_dupes : Option Bool
  accept_dupes : Bool
  outgoing_dedup_hash : Option (Event → Int)
  is_graph_important : Event → Bool

/-- Modelled from the spec: the Scan collaborator contract (§6), restricted to
what the dispatcher reads: the module map (as an insertion-ordered list), the
configured report distance, and the whitelist/blacklist predicates. -/
structure Scan where
  modules : List ScanModule
  scope_report_distance : Int
  whitelisted : Event → Bool
  blacklisted : Event → Bool

/-- A dedup fingerprint: either a module-supplied custom key
(`event.module._outgoing_dedup_hash(event)`) or the default
`hash((event, str(event.module)))`, where an event's own hash is its
canonical identity `(type, data)` (spec §3 Identity). -/
inductive FP where
  | custom (k : Int)
  | dflt (typ data modname : String)
deriving DecidableEq

/-- The mutable state of the ScanManager: the event arena plus the two dedup
trackers, the shared ingress queue, the record of module deliveries
(calls to `mod.queue_event`), and the word-cloud absorption record. -/
structure ManagerState where
  store : Nat → Event
  incoming_dup_tracker : List FP
  outgoing_dup_tracker : List (String × String)
  incoming_event_queue : List Nat
  deliveries : List (String × Nat)
  word_cloud : List Nat

def getEvent (st : ManagerState) (i : Nat) : Event := st.store i

def updEvent (st : ManagerState) (i : Nat) (f : Event → Event) : ManagerState :=
  { st with store := fun k => if k = i then f (st.store k) else st.store k }

/-- `str(getattr(event, "module", ""))` — Python's `str(None)` is `"None"`. -/
def moduleName (e : Event) : String := e.module.getD "None"

/-- Resolve the producer module object of an event by name. -/
def findModule (scan : Scan) (e : Event) : Option ScanModule :=
  match e.module with
  | none => none
  | some n => scan.modules.find? (fun m => m.name == n)

/-- `getattr(event.module, "suppress_dupes", True)` (manager.py line 256). -/
def suppressDupes (scan : Scan) (e : Event) : Bool :=
  match findModule scan e with
  | some m => m.suppress_dupes.getD true
  | none => true

/-- The per-producer fingerprint computed by `is_incoming_duplicate`
(manager.py lines 249-252): the module's `_outgoing_dedup_hash(event)` when
the method exists, otherwise `hash((event, str(event.module)))`. -/
def incomingFingerprint (scan : Scan) (e : Event) : FP :=
  match findModule scan e with
  | some m =>
    match m.outgoing_dedup_hash with
    | some f => FP.custom (f e)
    | none => FP.dflt e.typ e.data (moduleName e)
  | none => FP.dflt e.typ e.data (moduleName e)

/-- `ScanManager.is_incoming_duplicate(event, add=False)`
(manager.py lines 244-259).  Returns the boolean result together with the
state (the tracker is extended exactly when `add` is true). -/
def is_incoming_duplicate (scan : Scan) (st : ManagerState) (i : Nat) (add : Bool) :
    Bool × ManagerState :=
  let e := getEvent st i
  let event_hash := incomingFingerprint scan e
  let is_dup := decide (event_hash ∈ st.incoming_dup_tracker)
  let st' :=
    if add then { st with incoming_dup_tracker := event_hash :: st.incoming_dup_tracker }
    else st
  (suppressDupes scan e && is_dup, st')

/-- `ScanManager.is_outgoing_duplicate(event, add=False)`
(manager.py lines 261-272).  `hash(event)` is the canonical identity
`(type, data)`. -/
def is_outgoing_duplicate (st : ManagerState) (i : Nat) (add : Bool) :
    Bool × ManagerState :=
  let e := getEvent st i
  let event_hash := (e.typ, e.data)
  let is_dup := decide (event_hash ∈ st.outgoing_dup_tracker)
  let st' :=
    if add then { st with outgoing_dup_tracker := event_hash :: st.outgoing_dup_tracker }
    else st
  (is_dup, st')

/-- Modelled from the spec: `event == event.get_source()` (manager.py line
155).  Event equality is canonical-identity equality on `(type, data)`
(spec §3 Identity); the Event class itself is not under `src/`.
A `none` source compares unequal. -/
def sameIdentityAsSource (st : ManagerState) (e : Event) : Bool :=
  match e.source with
  | some s => e.typ == (getEvent st s).typ && e.data == (getEvent st s).data
  | none => false

/-- `ScanManager._event_precheck(event)` (manager.py lines 148-163). -/
def event_precheck (scan : Scan) (st : ManagerState) (i : Nat) : Bool × ManagerState :=
  let e := getEvent st i
  if e.dummy then (false, st)
  else if sameIdentityAsSource st e then (false, st)
  else if e.graph_important then (true, st)
  else
    let r := is_incoming_duplicate scan st i true
    if r.1 then (false, r.2) else (true, r.2)

/-- Python truthiness of `event.host` (an absent or empty host is falsy). -/
def hostTruthy (e : Event) : Bool :=
  match e.host with
  | none => false
  | some h => !h.isEmpty

/-- The deprioritization condition of `queue_event` (manager.py lines
392-394): the event is not in scope (`scope_distance > 0`) and not
`whitelisted(event) and not blacklisted(event)`. -/
def nerfCond (scan : Scan) (e : Event) : Bool :=
  decide (0 < e.scope_distance) && !(scan.whitelisted e && !scan.blacklisted e)

/-- `ScanManager.queue_event(event)` (manager.py lines 389-398).
If the event's source is `None`, reading `event.source.scope_distance`
raises in Python, so the enqueue does not happen (the priority nerf, which
runs first, is already committed); the `none` branch returns that state. -/
def queue_event (scan : Scan) (st : ManagerState) (i : Nat) : ManagerState :=
  let e := getEvent st i
  let st1 :=
    if nerfCond scan e then
      updEvent st i (fun ev => { ev with module_priority := ev.module_priority + ev.scope_distance })
    else st
  match (getEvent st1 i).source with
  | some s =>
    let st2 := updEvent st1 i (fun ev => { ev with scope_distance := (getEvent st1 s).scope_distance + 1 })
    { st2 with incoming_event_queue := st2.incoming_event_queue ++ [i] }
  | none => st1

/-- The report-distance internalization step of `distribute_event`
(manager.py lines 279-286). -/
def distribute_internalize (scan : Scan) (st : ManagerState) (i : Nat) : ManagerState :=
  let e := getEvent st i
  let event_in_report_distance := decide (e.scope_distance ≤ scan.scope_report_distance)
  let event_will_be_output := e.always_emit || event_in_report_distance
  if !event_will_be_output then updEvent st i (fun ev => { ev with internal := true })
  else st

/-- The ancestor-promotion step of `distribute_event`
(manager.py lines 288-298), run on the already-internalized event. -/
def distribute_promote (scan : Scan) (st : ManagerState) (i : Nat) : ManagerState :=
  let e1 := getEvent st i
  match e1.source with
  | none => st
  | some s =>
    let src := getEvent st s
    if src.internal && (!e1.internal || e1.graph_important) then
      let st2a :=
        if decide (src.scope_distance ≤ scan.scope_report_distance) then
          updEvent st s (fun ev => { ev with internal := false })
        else st
      if !(getEvent st2a s).graph_important then
        queue_event scan (updEvent st2a s (fun ev => { ev with graph_important := true })) s
      else st2a
    else st

/-- The fan-out loop of `distribute_event` (manager.py lines 306-314):
hook modules are skipped; a non-hook module receives the event iff
`((not is_outgoing_duplicate) or mod.accept_dupes) or mod._is_graph_important(event)`. -/
def deliverAll (st : ManagerState) (i : Nat) (is_dup : Bool) : List ScanModule → ManagerState
  | [] => st
  | m :: ms =>
    if m.hook then deliverAll st i is_dup ms
    else
      let e := getEvent st i
      let acceptable_dup := !is_dup || m.accept_dupes
      let graph_important := m.is_graph_important e
      let st' :=
        if acceptable_dup || graph_important then
          { st with deliveries := st.deliveries ++ [(m.name, i)] }
        else st
      deliverAll st' i is_dup ms

/-- Whether the ancestor-promotion step raises in Python: promotion fires
(manager.py line 291), the source is not yet graph-important — so
`queue_event(source)` is called at line 298 — and the source's own `source`
is `None`, making the read of `event.source.scope_distance` at line 397
raise `AttributeError`.  That exception is suppressed only by the `_acatch`
wrapping all of `distribute_event` (line 278); none of the fields the raise
condition reads is mutated before the raising read. -/
def promote_raises (st : ManagerState) (i : Nat) : Bool :=
  match (getEvent st i).source with
  | none => false
  | some s =>
    let e1 := getEvent st i
    let src := getEvent st s
    (src.internal && (!e1.internal || e1.graph_important))
      && (!src.graph_important && src.source.isNone)

/-- `ScanManager.distribute_event(event)` (manager.py lines 274-314).
Reading `event.source` on a `None` source raises in Python and the
surrounding `_acatch` suppresses the exception, so everything after the
internalization step is skipped in that case (the `none` branch).
Likewise, when the promotion re-queue raises (`promote_raises`), the
mutations made so far are committed but the dedup consultation, the word
cloud, and the fan-out are all skipped.
Note the scan-global dedup consultation at line 300 calls
`is_outgoing_duplicate(event)` with `add` left at its default `False`. -/
def distribute_event (scan : Scan) (st : ManagerState) (i : Nat) : ManagerState :=
  let st1 := distribute_internalize scan st i
  match (getEvent st1 i).source with
  | none => st1
  | some _ =>
    let st2 := distribute_promote scan st1 i
    if promote_raises st1 i then st2
    else
      let r := is_outgoing_duplicate st2 i false
      let e3 := getEvent r.2 i
      let st4 :=
        if !r.1 && (decide (-1 < e3.scope_distance) && decide (e3.scope_distance < 1)) then
          { r.2 with word_cloud := r.2.word_cloud ++ [i] }
        else r.2
      deliverAll st4 i r.1 scan.modules

/-- The result of abort evaluation in the dispatcher: the user-supplied
`abort_if` callable may raise, return a truthy/falsy value, or return a
`(result, reason)` pair (manager.py lines 218-228). -/
inductive AbortRes where
  | raises
  | val (truthy : Bool)
  | pairv (truthy : Bool) (reason : String)

/-- Outcome of `_emit_event`: the final state, whether `distribute_event`
was reached, and the reason string logged when `abort_if` vetoed. -/
structure EmitResult where
  st : ManagerState
  distributed : Bool
  abortReason : Option String

/-- `ScanManager._emit_event(event, **kwargs)` (manager.py lines 199-235),
the slow emit path: blacklist rejection, whitelist scope promotion, abort
evaluation, success callback, distribution.  The `abort_if` behaviour on the
event is given as an `AbortRes` (raising inside the surrounding `_acatch`
leaves `abort_result` at its initial `False`, since Python's unpacking of
`False` into a pair raises `TypeError` which `suppress` swallows); the
success callback's effect on the event is given as a function. -/
def emit_event_slow (scan : Scan) (st : ManagerState) (i : Nat)
    (abort_if : Option AbortRes) (on_success_callback : Option (Event → Event)) :
    EmitResult :=
  let e := getEvent st i
  if scan.blacklisted e || e.tags.contains "blacklisted" then
    { st := st, distributed := false, abortReason := none }
  else
    let event_whitelisted := scan.whitelisted e
    let st1 :=
      if hostTruthy e && event_whitelisted then
        updEvent st i (fun ev => { ev with scope_distance := 0 })
      else st
    let abort_eval : Bool × Option String :=
      match abort_if with
      | none => (false, none)
      | some AbortRes.raises => (false, none)
      | some (AbortRes.val b) => (b, none)
      | some (AbortRes.pairv b r) => (b, some r)
    if abort_eval.1 then { st := st1, distributed := false, abortReason := abort_eval.2 }
    else
      let st2 :=
        match on_success_callback with
        | some f => updEvent st1 i f
        | none => st1
      { st := distribute_event scan st2 i, distributed := true, abortReason := none }

/-- Stable insertion used by `modules_by_priority`. -/
def insertByPriority (m : ScanModule) : List ScanModule → List ScanModule
  | [] => [m]
  | b :: bs => if m.priority ≤ b.priority then m :: b :: bs else b :: insertByPriority m bs

/-- `ScanManager.modules_by_priority` (manager.py lines 326-330):
`sorted(scan.modules.values(), key=lambda m: m.priority)` (stable sort). -/
def modules_by_priority (scan : Scan) : List ScanModule :=
  scan.modules.foldr insertByPriority []

/-- `ScanManager.hook_modules` (manager.py lines 354-360). -/
def hook_modules (scan : Scan) : List ScanModule :=
  (modules_by_priority scan).filter (fun m => m.hook)

/-- Stable insertion used by the seed sort in `init_events`. -/
def insertByDataLen (st : ManagerState) (a : Nat) : List Nat → List Nat
  | [] => [a]
  | b :: bs =>
    if (getEvent st a).data.length ≤ (getEvent st b).data.length then a :: b :: bs
    else b :: insertByDataLen st a bs

/-- `sorted(scan.target.events, key=lambda e: len(e.data))`
(manager.py line 93), a stable sort by payload length. -/
def sortByDataLen (st : ManagerState) : List Nat → List Nat
  | [] => []
  | a :: rest => insertByDataLen st a (sortByDataLen st rest)

/-- One iteration of the seeding loop in `init_events`
(manager.py lines 94-108): normalize the event (clear `_dummy`, set
`scope_distance` to 0, set `web_spider_distance` to 0, default the source to
the root event and the module to the synthetic TARGET module), then feed it
to the first hook module's sink if hooks exist, else to the dispatcher's own
`queue_event`. -/
def init_event_step (scan : Scan) (root_id : Nat) (st : ManagerState) (i : Nat) :
    ManagerState :=
  let st1 := updEvent st i (fun ev =>
    { ev with dummy := false
            , scope_distance := 0
            , web_spider_distance := 0
            , source := some (ev.source.getD root_id)
            , module := some (ev.module.getD "TARGET") })
  match hook_modules scan with
  | first_hook :: _ => { st1 with deliveries := st1.deliveries ++ [(first_hook.name, i)] }
  | [] => queue_event scan st1 i

/-- `ScanManager.init_events()` (manager.py lines 81-110): seed the scan with
`[root_event] + sorted(target.events, key=len(data))`. -/
def init_events (scan : Scan) (st : ManagerState) (root_id : Nat) (target_ids : List Nat) :
    ManagerState :=
  let sorted_events := sortByDataLen st target_ids
  (root_id :: sorted_events).foldl (init_event_step scan root_id) st

/-- The value of `event.internal` right after the internalization step of
`distribute_event`, as a function of the event's pre-distribution state. -/
def post_internal (scan : Scan) (e : Event) : Bool :=
  if e.always_emit || decide (e.scope_distance ≤ scan.scope_report_distance) then e.internal
  else true

/-- A baseline event used to build concrete states. -/
def baseEvent : Event :=
  { typ := "DNS_NAME", data := "", source := none, module := none
  , scope_distance := 0, internal := false, graph_important := false
  , always_emit := false, dummy := false, tags := [], host := none
  , module_priority := 0, web_spider_distance := 0 }

/-- An empty manager state over a given arena. -/
def emptyState (store : Nat → Event) : ManagerState :=
  { store := store, incoming_dup_tracker := [], outgoing_dup_tracker := []
  , incoming_event_queue := [], deliveries := [], word_cloud := [] }

def modC1 : ScanModule :=
  { name := "m", priority := 3, hook := false, suppress_dupes := none
  , accept_dupes := false, outgoing_dedup_hash := none
  , is_graph_important := fun _ => false }

def scanC1 : Scan :=
  { modules := [modC1], scope_report_distance := 1
  , whitelisted := fun _ => false, blacklisted := fun _ => false }

def rootC1 : Event := { baseEvent with typ := "SCAN", data := "root", source := some 0 }

def dupC1 : Event := { baseEvent with data := "evilcorp.com", source := some 0, module := some "m" }

def stC1 : ManagerState := emptyState (fun k => if k = 0 then rootC1 else dupC1)


def scanC2 : Scan :=
  { modules := [], scope_report_distance := 0
  , whitelisted := fun _ => false, blacklisted := fun _ => false }

def rootC2 : Event :=
  { baseEvent with typ := "SCAN", data := "root", source := some 0, module := some "TARGET" }

def targetC2 : Event := { baseEvent with data := "example.com", scope_distance := -1 }

def stC2 : ManagerState := emptyState (fun k => if k = 0 then rootC2 else targetC2)


/-- C1: evaluating the code at the failing input.  Two events (ids 1 and 2)
with equal canonical identity `("DNS_NAME", "evilcorp.com")` are processed by
`distribute_event` in sequence; the module `"m"` has `accept_dupes = false`
and `_is_graph_important` constantly false, yet BOTH events are delivered to
it, and the outgoing fingerprint set is still empty afterwards: the call site
at manager.py line 300 leaves `add` at its default `False`, so the
scan-global dedup never records anything. -/
theorem c1_no_global_dedup_at_failing_input :
    (getEvent stC1 1).typ = (getEvent stC1 2).typ ∧
    (getEvent stC1 1).data = (getEvent stC1 2).data ∧
    (distribute_event scanC1 (distribute_event scanC1 stC1 1) 2).deliveries
      = [("m", 1), ("m", 2)] ∧
    (distribute_event scanC1 (distribute_event scanC1 stC1 1) 2).outgoing_dup_tracker
      = [] := by
  refine ⟨rfl, rfl, ?_, ?_⟩ <;> rfl

/-- C2: evaluating the code at the failing input.  With no hook modules, a
scan seeded with root event id 0 and target event id 1 (`"example.com"`,
source `None`) runs `init_events`; the seed step sets `scope_distance = 0`
but then routes the event through the dispatcher's own `queue_event`, which
overwrites it with `source.scope_distance + 1`.  The target ends up on the
shared ingress queue with `scope_distance = 2` (and the root with 1), not 0. -/
theorem c2_seed_scope_overwritten_at_failing_input :
    (init_events scanC2 stC2 0 [1]).incoming_event_queue = [0, 1] ∧
    ((init_events scanC2 stC2 0 [1]).store 1).scope_distance = 2 ∧
    ((init_events scanC2 stC2 0 [1]).store 0).scope_distance = 1 := by
  refine ⟨?_, ?_, ?_⟩ <;> rfl

def scanC3 : Scan :=
  { modules := [], scope_report_distance := 0
  , whitelisted := fun _ => false, blacklisted := fun _ => false }

def parentC3 : Event := { baseEvent with typ := "SCAN", data := "root", source := some 0 }

def giC3 : Event :=
  { baseEvent with
      data := "gi.example.com", source := some 0, module := some "m",
      graph_important := true }

def stC3 : ManagerState := emptyState (fun k => if k = 0 then parentC3 else giC3)

/-- C3 counterexample: the precheck accepts the `_graph_important` event id 1
(not a dummy, not its own source), yet its incoming fingerprint has NOT been
added to the tracker — `_event_precheck` returns `True` at manager.py line
159 before ever reaching the `is_incoming_duplicate(event, add=True)` call,
so the claimed on-acceptance side effect fails for graph-important events. -/
theorem c3_graph_important_accepted_without_add :
    (event_precheck scanC3 stC3 1).1 = true ∧
    ¬ incomingFingerprint scanC3 (getEvent stC3 1)
        ∈ (event_precheck scanC3 stC3 1).2.incoming_dup_tracker := by
  exact ⟨rfl, by decide⟩

theorem updEvent_store_self (st : ManagerState) (i : Nat) (f : Event → Event) :
    (updEvent st i f).store i = f (st.store i) := by
  simp [updEvent]

theorem updEvent_store_ne (st : ManagerState) (i j : Nat) (f : Event → Event) (h : j ≠ i) :
    (updEvent st i f).store j = st.store j := by
  simp [updEvent, h]

theorem queue_event_trackers (scan : Scan) (st : ManagerState) (i : Nat) :
    (queue_event scan st i).incoming_dup_tracker = st.incoming_dup_tracker ∧
    (queue_event scan st i).outgoing_dup_tracker = st.outgoing_dup_tracker ∧
    (queue_event scan st i).deliveries = st.deliveries ∧
    (queue_event scan st i).word_cloud = st.word_cloud := by
  unfold queue_event
  dsimp only
  split <;> split <;> simp [updEvent]

theorem queue_event_store_ne (scan : Scan) (st : ManagerState) (i j : Nat) (h : j ≠ i) :
    (queue_event scan st i).store j = st.store j := by
  unfold queue_event
  dsimp only
  split <;> split <;> simp [updEvent, h]

/-- The delivery condition of the fan-out loop (manager.py lines 306-313):
the module is not a hook and
`((not is_outgoing_duplicate) or mod.accept_dupes) or mod._is_graph_important(event)`. -/
def fanoutPred (d : Bool) (e : Event) (m : ScanModule) : Bool :=
  !m.hook && ((!d || m.accept_dupes) || m.is_graph_important e)

theorem deliverAll_spec (i : Nat) (d : Bool) (ms : List ScanModule) (st : ManagerState) :
    deliverAll st i d ms =
      { st with deliveries :=
          st.deliveries ++ (ms.filter (fanoutPred d (st.store i))).map (fun m => (m.name, i)) } := by
  induction ms generalizing st with
  | nil => simp [deliverAll]
  | cons m ms ih =>
    by_cases hm : m.hook
    · simp [deliverAll, hm, ih, fanoutPred]
    · by_cases hc : ((!d || m.accept_dupes) || m.is_graph_important (st.store i)) = true
      · simp [deliverAll, hm, getEvent, hc, ih, fanoutPred]
      · simp only [Bool.not_eq_true] at hc
        simp [deliverAll, hm, getEvent, hc, ih, fanoutPred]

theorem internalize_store_self (scan : Scan) (st : ManagerState) (i : Nat) :
    (distribute_internalize scan st i).store i =
      { st.store i with internal := post_internal scan (st.store i) } := by
  simp only [distribute_internalize, getEvent, post_internal]
  by_cases hb : ((st.store i).always_emit
      || decide ((st.store i).scope_distance ≤ scan.scope_report_distance)) = true
  · simp [hb, updEvent]
  · simp only [Bool.not_eq_true] at hb
    simp [hb, updEvent]

theorem internalize_store_ne (scan : Scan) (st : ManagerState) (i j : Nat) (h : j ≠ i) :
    (distribute_internalize scan st i).store j = st.store j := by
  simp only [distribute_internalize]
  split <;> simp [updEvent, h]

theorem internalize_frame (scan : Scan) (st : ManagerState) (i : Nat) :
    (distribute_internalize scan st i).incoming_dup_tracker = st.incoming_dup_tracker ∧
    (distribute_internalize scan st i).outgoing_dup_tracker = st.outgoing_dup_tracker ∧
    (distribute_internalize scan st i).incoming_event_queue = st.incoming_event_queue ∧
    (distribute_internalize scan st i).deliveries = st.deliveries ∧
    (distribute_internalize scan st i).word_cloud = st.word_cloud := by
  simp only [distribute_internalize]
  split <;> simp [updEvent]

theorem queue_event_queue_some (scan : Scan) (st : ManagerState) (i s : Nat)
    (h : (st.store i).source = some s) :
    (queue_event scan st i).incoming_event_queue = st.incoming_event_queue ++ [i] := by
  by_cases hn : nerfCond scan (st.store i) = true
  · simp [queue_event, getEvent, updEvent, hn, h]
  · simp only [Bool.not_eq_true] at hn
    simp [queue_event, getEvent, updEvent, hn, h]

theorem queue_event_store_self (scan : Scan) (st : ManagerState) (i s : Nat)
    (h : (st.store i).source = some s) :
    (queue_event scan st i).store i =
      { (if nerfCond scan (st.store i) then
           { st.store i with
               module_priority := (st.store i).module_priority + (st.store i).scope_distance }
         else st.store i) with
          scope_distance := (st.store s).scope_distance + 1 } := by
  by_cases hn : nerfCond scan (st.store i) = true
  · by_cases hsi : s = i
    · subst hsi
      simp [queue_event, getEvent, updEvent, hn, h]
    · simp [queue_event, getEvent, updEvent, hn, h, hsi]
  · simp only [Bool.not_eq_true] at hn
    by_cases hsi : s = i
    · subst hsi
      simp [queue_event, getEvent, updEvent, hn, h]
    · simp [queue_event, getEvent, updEvent, hn, h, hsi]

theorem promote_nofire (scan : Scan) (st : ManagerState) (i s : Nat)
    (h : (st.store i).source = some s)
    (hc : ((st.store s).internal
        && (!(st.store i).internal || (st.store i).graph_important)) = false) :
    distribute_promote scan st i = st := by
  simp only [distribute_promote, getEvent, h]
  simp [hc]

theorem promote_nosource (scan : Scan) (st : ManagerState) (i : Nat)
    (h : (st.store i).source = none) :
    distribute_promote scan st i = st := by
  simp only [distribute_promote, getEvent, h]

theorem promote_fire_norequeue (scan : Scan) (st : ManagerState) (i s : Nat)
    (h : (st.store i).source = some s)
    (hc : ((st.store s).internal
        && (!(st.store i).internal || (st.store i).graph_important)) = true)
    (hgi : (st.store s).graph_important = true) :
    distribute_promote scan st i =
      if decide ((st.store s).scope_distance ≤ scan.scope_report_distance) then
        updEvent st s (fun ev => { ev with internal := false })
      else st := by
  by_cases h2 : decide ((st.store s).scope_distance ≤ scan.scope_report_distance) = true
  · simp [distribute_promote, getEvent, h, hc, h2, updEvent, hgi]
  · simp only [Bool.not_eq_true] at h2
    simp [distribute_promote, getEvent, h, hc, h2, hgi]

theorem promote_fire_requeue (scan : Scan) (st : ManagerState) (i s : Nat)
    (h : (st.store i).source = some s)
    (hc : ((st.store s).internal
        && (!(st.store i).internal || (st.store i).graph_important)) = true)
    (hgi : (st.store s).graph_important = false) :
    distribute_promote scan st i =
      queue_event scan
        (updEvent
          (if decide ((st.store s).scope_distance ≤ scan.scope_report_distance) then
            updEvent st s (fun ev => { ev with internal := false })
          else st)
          s (fun ev => { ev with graph_important := true })) s := by
  by_cases h2 : decide ((st.store s).scope_distance ≤ scan.scope_report_distance) = true
  · simp [distribute_promote, getEvent, h, hc, h2, updEvent, hgi]
  · simp only [Bool.not_eq_true] at h2
    simp [distribute_promote, getEvent, h, hc, h2, updEvent, hgi]

theorem queue_event_identity (scan : Scan) (st : ManagerState) (i j : Nat) :
    ((queue_event scan st i).store j).typ = (st.store j).typ ∧
    ((queue_event scan st i).store j).data = (st.store j).data ∧
    ((queue_event scan st i).store j).source = (st.store j).source ∧
    ((queue_event scan st i).store j).internal = (st.store j).internal ∧
    ((queue_event scan st i).store j).graph_important = (st.store j).graph_important := by
  by_cases hj : j = i
  · subst hj
    simp only [queue_event, getEvent]
    split
    · split <;> simp [updEvent]
    · split <;> simp [updEvent]
  · rw [queue_event_store_ne scan st i j hj]
    exact ⟨rfl, rfl, rfl, rfl, rfl⟩

theorem promote_store_ne (scan : Scan) (st : ManagerState) (i j s : Nat)
    (h : (st.store i).source = some s) (hj : j ≠ s) :
    (distribute_promote scan st i).store j = st.store j := by
  by_cases hc : ((st.store s).internal
      && (!(st.store i).internal || (st.store i).graph_important)) = true
  · by_cases hgi : (st.store s).graph_important = true
    · rw [promote_fire_norequeue scan st i s h hc hgi]
      split <;> simp [updEvent, hj]
    · simp only [Bool.not_eq_true] at hgi
      rw [promote_fire_requeue scan st i s h hc hgi]
      rw [queue_event_store_ne]
      · split <;> simp [updEvent, hj]
      · exact hj
  · simp only [Bool.not_eq_true] at hc
    rw [promote_nofire scan st i s h hc]

theorem promote_frame (scan : Scan) (st : ManagerState) (i : Nat) :
    (distribute_promote scan st i).incoming_dup_tracker = st.incoming_dup_tracker ∧
    (distribute_promote scan st i).outgoing_dup_tracker = st.outgoing_dup_tracker ∧
    (distribute_promote scan st i).deliveries = st.deliveries ∧
    (distribute_promote scan st i).word_cloud = st.word_cloud := by
  cases hs : (st.store i).source with
  | none =>
    rw [promote_nosource scan st i hs]
    exact ⟨rfl, rfl, rfl, rfl⟩
  | some s =>
    by_cases hc : ((st.store s).internal
        && (!(st.store i).internal || (st.store i).graph_important)) = true
    · by_cases hgi : (st.store s).graph_important = true
      · rw [promote_fire_norequeue scan st i s hs hc hgi]
        split <;> simp [updEvent]
      · simp only [Bool.not_eq_true] at hgi
        rw [promote_fire_requeue scan st i s hs hc hgi]
        obtain ⟨q1, q2, q3, q4⟩ := queue_event_trackers scan
          (updEvent
            (if decide ((st.store s).scope_distance ≤ scan.scope_report_distance) then
              updEvent st s (fun ev => { ev with internal := false })
            else st)
            s (fun ev => { ev with graph_important := true })) s
        rw [q1, q2, q3, q4]
        split <;> simp [updEvent]
    · simp only [Bool.not_eq_true] at hc
      rw [promote_nofire scan st i s hs hc]
      exact ⟨rfl, rfl, rfl, rfl⟩

theorem promote_identity (scan : Scan) (st : ManagerState) (i j : Nat) :
    ((distribute_promote scan st i).store j).typ = (st.store j).typ ∧
    ((distribute_promote scan st i).store j).data = (st.store j).data ∧
    ((distribute_promote scan st i).store j).source = (st.store j).source := by
  cases hs : (st.store i).source with
  | none =>
    rw [promote_nosource scan st i hs]
    exact ⟨rfl, rfl, rfl⟩
  | some s =>
    by_cases hc : ((st.store s).internal
        && (!(st.store i).internal || (st.store i).graph_important)) = true
    · by_cases hgi : (st.store s).graph_important = true
      · rw [promote_fire_norequeue scan st i s hs hc hgi]
        split <;> simp [updEvent] <;> split <;> simp
      · simp only [Bool.not_eq_true] at hgi
        rw [promote_fire_requeue scan st i s hs hc hgi]
        obtain ⟨ht, hd, hsrc, _, _⟩ := queue_event_identity scan
          (updEvent
            (if decide ((st.store s).scope_distance ≤ scan.scope_report_distance) then
              updEvent st s (fun ev => { ev with internal := false })
            else st)
            s (fun ev => { ev with graph_important := true })) s j
        rw [ht, hd, hsrc]
        split <;> simp [updEvent] <;> split <;> simp
    · simp only [Bool.not_eq_true] at hc
      rw [promote_nofire scan st i s hs hc]
      exact ⟨rfl, rfl, rfl⟩

theorem distribute_event_raised (scan : Scan) (st : ManagerState) (i s : Nat)
    (h : (st.store i).source = some s)
    (hr : promote_raises (distribute_internalize scan st i) i = true) :
    distribute_event scan st i
      = distribute_promote scan (distribute_internalize scan st i) i := by
  have h1 : ((distribute_internalize scan st i).store i).source = some s := by
    rw [internalize_store_self]
    exact h
  simp only [distribute_event, getEvent, h1]
  rw [if_pos hr]

theorem distribute_event_eq (scan : Scan) (st : ManagerState) (i s : Nat)
    (h : (st.store i).source = some s)
    (hnr : promote_raises (distribute_internalize scan st i) i = false) :
    distribute_event scan st i =
      (let st2 := distribute_promote scan (distribute_internalize scan st i) i
       let d := decide (((st2.store i).typ, (st2.store i).data) ∈ st2.outgoing_dup_tracker)
       let st4 :=
         if !d && (decide (-1 < (st2.store i).scope_distance)
             && decide ((st2.store i).scope_distance < 1)) then
           { st2 with word_cloud := st2.word_cloud ++ [i] }
         else st2
       deliverAll st4 i d scan.modules) := by
  have h1 : ((distribute_internalize scan st i).store i).source = some s := by
    rw [internalize_store_self]
    exact h
  simp only [distribute_event, getEvent, h1, is_outgoing_duplicate, hnr,
    Bool.false_eq_true, if_false]

theorem distribute_event_store (scan : Scan) (st : ManagerState) (i s : Nat)
    (h : (st.store i).source = some s) (j : Nat) :
    (distribute_event scan st i).store j =
      (distribute_promote scan (distribute_internalize scan st i) i).store j := by
  by_cases hr : promote_raises (distribute_internalize scan st i) i = true
  · rw [distribute_event_raised scan st i s h hr]
  · simp only [Bool.not_eq_true] at hr
    rw [distribute_event_eq scan st i s h hr]
    simp only [deliverAll_spec]
    split <;> rfl

theorem distribute_event_queue (scan : Scan) (st : ManagerState) (i s : Nat)
    (h : (st.store i).source = some s) :
    (distribute_event scan st i).incoming_event_queue =
      (distribute_promote scan (distribute_internalize scan st i) i).incoming_event_queue := by
  by_cases hr : promote_raises (distribute_internalize scan st i) i = true
  · rw [distribute_event_raised scan st i s h hr]
  · simp only [Bool.not_eq_true] at hr
    rw [distribute_event_eq scan st i s h hr]
    simp only [deliverAll_spec]
    split <;> rfl

/-- C5: for every event entering the distributor (a well-formed event: its
source is set and is a different arena object, as guaranteed by the
precheck's self-source rejection), `distribute_event` sets `internal` to
`true` exactly when the event is not `always_emit` and its `scope_distance`
exceeds `scan.scope_report_distance`; otherwise `internal` is left unchanged
(manager.py lines 279-286). -/
theorem c5_report_distance_internalization (scan : Scan) (st : ManagerState) (i s : Nat)
    (hs : (st.store i).source = some s) (hne : s ≠ i) :
    ((distribute_event scan st i).store i).internal =
      (if (st.store i).always_emit
          || decide ((st.store i).scope_distance ≤ scan.scope_report_distance) then
        (st.store i).internal
      else true) := by
  have h1 : ((distribute_internalize scan st i).store i).source = some s := by
    rw [internalize_store_self]
    exact hs
  rw [distribute_event_store scan st i s hs i]
  rw [promote_store_ne scan (distribute_internalize scan st i) i i s h1 (fun hh => hne hh.symm)]
  rw [internalize_store_self]
  rfl

/-- C5 witness: a concrete run.  Event 1 (scope 3, report distance 1, not
`always_emit`, `internal` initially false) is internalized by the
distributor. -/
theorem c5_report_distance_internalization_witness :
    ((distribute_event scanC1
        (emptyState (fun k => if k = 0 then rootC1
          else { dupC1 with scope_distance := 3 })) 1).store 1).internal = true := by
  have h := c5_report_distance_internalization scanC1
    (emptyState (fun k => if k = 0 then rootC1
      else { dupC1 with scope_distance := 3 })) 1 0 (by decide) (by decide)
  rw [h]
  decide

theorem promote_effects_requeue (scan : Scan) (st : ManagerState) (i s : Nat)
    (h : (st.store i).source = some s)
    (hc : ((st.store s).internal
        && (!(st.store i).internal || (st.store i).graph_important)) = true)
    (hgi : (st.store s).graph_important = false) :
    ((distribute_promote scan st i).store s).internal
      = (if decide ((st.store s).scope_distance ≤ scan.scope_report_distance) then false
         else (st.store s).internal) ∧
    ((distribute_promote scan st i).store s).graph_important = true ∧
    ((st.store s).source.isSome = true →
      (distribute_promote scan st i).incoming_event_queue
        = st.incoming_event_queue ++ [s]) := by
  rw [promote_fire_requeue scan st i s h hc hgi]
  by_cases h2 : decide ((st.store s).scope_distance ≤ scan.scope_report_distance) = true
  · rw [if_pos h2, if_pos h2]
    obtain ⟨ht, hd, hsrc, hin, hg⟩ := queue_event_identity scan
      (updEvent (updEvent st s (fun ev => { ev with internal := false })) s
        (fun ev => { ev with graph_important := true })) s s
    refine ⟨?_, ?_, ?_⟩
    · rw [hin]; simp [updEvent]
    · rw [hg]; simp [updEvent]
    · intro hsome
      obtain ⟨s2, hs2⟩ := Option.isSome_iff_exists.mp hsome
      rw [queue_event_queue_some scan _ s s2 (by simp [updEvent, hs2])]
      simp [updEvent]
  · rw [if_neg h2, if_neg h2]
    obtain ⟨ht, hd, hsrc, hin, hg⟩ := queue_event_identity scan
      (updEvent st s (fun ev => { ev with graph_important := true })) s s
    refine ⟨?_, ?_, ?_⟩
    · rw [hin]; simp [updEvent]
    · rw [hg]; simp [updEvent]
    · intro hsome
      obtain ⟨s2, hs2⟩ := Option.isSome_iff_exists.mp hsome
      rw [queue_event_queue_some scan _ s s2 (by simp [updEvent, hs2])]
      simp [updEvent]

theorem promote_effects_norequeue (scan : Scan) (st : ManagerState) (i s : Nat)
    (h : (st.store i).source = some s)
    (hc : ((st.store s).internal
        && (!(st.store i).internal || (st.store i).graph_important)) = true)
    (hgi : (st.store s).graph_important = true) :
    ((distribute_promote scan st i).store s).internal
      = (if decide ((st.store s).scope_distance ≤ scan.scope_report_distance) then false
         else (st.store s).internal) ∧
    (distribute_promote scan st i).incoming_event_queue = st.incoming_event_queue := by
  rw [promote_fire_norequeue scan st i s h hc hgi]
  by_cases h2 : decide ((st.store s).scope_distance ≤ scan.scope_report_distance) = true
  · rw [if_pos h2, if_pos h2]
    simp [updEvent]
  · rw [if_neg h2, if_neg h2]
    exact ⟨rfl, rfl⟩

/-- C4: the ancestor-promotion step of `distribute_event` (manager.py lines
288-298).  Let `src` be the event's source.  If `src.internal` holds and,
after the internalization step, the event is externally visible or is
`_graph_important`, then: `src.internal` is cleared exactly when
`src.scope_distance ≤ scope_report_distance`; if `src` is not yet
`_graph_important` it is marked so and re-queued onto the shared ingress
queue; if `src` is already `_graph_important` it is not re-queued. -/
theorem c4_ancestor_promotion (scan : Scan) (st : ManagerState) (i s : Nat)
    (hs : (st.store i).source = some s) (hne : s ≠ i)
    (hint : (st.store s).internal = true)
    (hcond : post_internal scan (st.store i) = false ∨ (st.store i).graph_important = true) :
    ((distribute_event scan st i).store s).internal
      = (if decide ((st.store s).scope_distance ≤ scan.scope_report_distance) then false
         else true) ∧
    ((st.store s).graph_important = false →
      ((distribute_event scan st i).store s).graph_important = true ∧
      ((st.store s).source.isSome = true →
        (distribute_event scan st i).incoming_event_queue
          = st.incoming_event_queue ++ [s])) ∧
    ((st.store s).graph_important = true →
      (distribute_event scan st i).incoming_event_queue = st.incoming_event_queue) := by
  have h1 : ((distribute_internalize scan st i).store i).source = some s := by
    rw [internalize_store_self]
    exact hs
  have hstS : (distribute_internalize scan st i).store s = st.store s :=
    internalize_store_ne scan st i s hne
  have hcI : (((distribute_internalize scan st i).store s).internal
      && (!((distribute_internalize scan st i).store i).internal
          || ((distribute_internalize scan st i).store i).graph_important)) = true := by
    rw [hstS, hint, internalize_store_self]
    rcases hcond with hp | hg
    · simp [hp]
    · simp [hg]
  by_cases hg2 : (st.store s).graph_important = true
  · have hgI : ((distribute_internalize scan st i).store s).graph_important = true := by
      rw [hstS]; exact hg2
    obtain ⟨hi1, hq1⟩ := promote_effects_norequeue scan _ i s h1 hcI hgI
    rw [hstS, hint] at hi1
    refine ⟨?_, ?_, ?_⟩
    · rw [distribute_event_store scan st i s hs s, hi1]
    · intro hg2'
      exact absurd hg2 (by simp [hg2'])
    · intro _
      rw [distribute_event_queue scan st i s hs, hq1, (internalize_frame scan st i).2.2.1]
  · simp only [Bool.not_eq_true] at hg2
    have hgI : ((distribute_internalize scan st i).store s).graph_important = false := by
      rw [hstS]; exact hg2
    obtain ⟨hi1, hg1, hq1⟩ := promote_effects_requeue scan _ i s h1 hcI hgI
    rw [hstS, hint] at hi1
    refine ⟨?_, ?_, ?_⟩
    · rw [distribute_event_store scan st i s hs s, hi1]
    · intro _
      constructor
      · rw [distribute_event_store scan st i s hs s, hg1]
      · intro hsome
        have hsomeI : ((distribute_internalize scan st i).store s).source.isSome = true := by
          rw [hstS]; exact hsome
        rw [distribute_event_queue scan st i s hs, hq1 hsomeI,
          (internalize_frame scan st i).2.2.1]
    · intro hg2'
      exact absurd hg2' (by simp [hg2])

def scanW4 : Scan :=
  { modules := [], scope_report_distance := 0
  , whitelisted := fun _ => false, blacklisted := fun _ => false }

def srcW4 : Event :=
  { baseEvent with typ := "SCAN", data := "root", source := some 0, internal := true }

def evW4 : Event :=
  { baseEvent with
      data := "x.evilcorp.com", source := some 0, scope_distance := 5,
      graph_important := true }

def stW4 : ManagerState := emptyState (fun k => if k = 0 then srcW4 else evW4)

/-- C4 witness: a concrete promotion.  Event 1 (graph-important, scope 5) has
internal source 0 (scope 0 ≤ report distance 0, not yet graph-important):
the distributor clears the source's `internal`, marks it graph-important,
and re-queues it onto the shared ingress. -/
theorem c4_ancestor_promotion_witness :
    ((distribute_event scanW4 stW4 1).store 0).internal = false ∧
    ((distribute_event scanW4 stW4 1).store 0).graph_important = true ∧
    (distribute_event scanW4 stW4 1).incoming_event_queue = [0] := by
  have h := c4_ancestor_promotion scanW4 stW4 1 0 (by decide) (by decide) (by decide)
    (Or.inr (by decide))
  refine ⟨?_, ?_, ?_⟩
  · rw [h.1]; decide
  · exact (h.2.1 (by decide)).1
  · rw [(h.2.1 (by decide)).2 (by decide)]; decide

theorem promote_requeue_scope_mp (scan : Scan) (st : ManagerState) (i s s2 : Nat)
    (h : (st.store i).source = some s)
    (hc : ((st.store s).internal
        && (!(st.store i).internal || (st.store i).graph_important)) = true)
    (hgi : (st.store s).graph_important = false)
    (hss : (st.store s).source = some s2) :
    ((distribute_promote scan st i).store s).scope_distance
      = (st.store s2).scope_distance + 1 ∧
    ((distribute_promote scan st i).store s).module_priority
      = (if nerfCond scan
            { (if decide ((st.store s).scope_distance ≤ scan.scope_report_distance) then
                 { st.store s with internal := false }
               else st.store s) with graph_important := true } then
           (st.store s).module_priority + (st.store s).scope_distance
         else (st.store s).module_priority) := by
  rw [promote_fire_requeue scan st i s h hc hgi]
  by_cases h2 : decide ((st.store s).scope_distance ≤ scan.scope_report_distance) = true
  · rw [if_pos h2, if_pos h2]
    have hsrc : ((updEvent (updEvent st s (fun ev => { ev with internal := false })) s
        (fun ev => { ev with graph_important := true })).store s).source = some s2 := by
      simp [updEvent, hss]
    rw [queue_event_store_self scan _ s s2 hsrc]
    constructor
    · by_cases hs2 : s2 = s
      · subst hs2; simp [updEvent]
      · simp [updEvent, hs2]
    · simp only [updEvent]
      simp
      split <;> rfl
  · rw [if_neg h2, if_neg h2]
    have hsrc : ((updEvent st s
        (fun ev => { ev with graph_important := true })).store s).source = some s2 := by
      simp [updEvent, hss]
    rw [queue_event_store_self scan _ s s2 hsrc]
    constructor
    · by_cases hs2 : s2 = s
      · subst hs2; simp [updEvent]
      · simp [updEvent, hs2]
    · simp only [updEvent]
      simp
      split <;> rfl

/-- C10: when ancestor promotion re-queues the promoted source event, the
re-queueing goes through `queue_event` (manager.py line 298), which mutates
the promoted ancestor beyond promotion itself: its `scope_distance` is
overwritten with its own source's `scope_distance + 1`, and if it is out of
scope (`scope_distance > 0`) and not whitelisted its `module_priority` is
increased by its `scope_distance` (the whitelist predicate is applied to the
ancestor as already mutated by promotion, i.e. with `internal` possibly
cleared and `_graph_important` set). -/
theorem c10_requeue_frame_effect (scan : Scan) (st : ManagerState) (i s s2 : Nat)
    (hs : (st.store i).source = some s) (hne : s ≠ i)
    (hint : (st.store s).internal = true)
    (hcond : post_internal scan (st.store i) = false ∨ (st.store i).graph_important = true)
    (hgi : (st.store s).graph_important = false)
    (hss : (st.store s).source = some s2) :
    ((distribute_event scan st i).store s).scope_distance
      = (st.store s2).scope_distance + 1 ∧
    (decide (0 < (st.store s).scope_distance) = true →
      scan.whitelisted
          { (if decide ((st.store s).scope_distance ≤ scan.scope_report_distance) then
               { st.store s with internal := false }
             else st.store s) with graph_important := true } = false →
      ((distribute_event scan st i).store s).module_priority
        = (st.store s).module_priority + (st.store s).scope_distance) ∧
    (decide (0 < (st.store s).scope_distance) = false →
      ((distribute_event scan st i).store s).module_priority
        = (st.store s).module_priority) := by
  have h1 : ((distribute_internalize scan st i).store i).source = some s := by
    rw [internalize_store_self]
    exact hs
  have hstS : (distribute_internalize scan st i).store s = st.store s :=
    internalize_store_ne scan st i s hne
  have hscope2 : ((distribute_internalize scan st i).store s2).scope_distance
      = (st.store s2).scope_distance := by
    by_cases hs2i : s2 = i
    · subst hs2i
      rw [internalize_store_self]
    · rw [internalize_store_ne scan st i s2 hs2i]
  have hcI : (((distribute_internalize scan st i).store s).internal
      && (!((distribute_internalize scan st i).store i).internal
          || ((distribute_internalize scan st i).store i).graph_important)) = true := by
    rw [hstS, hint, internalize_store_self]
    rcases hcond with hp | hg
    · simp [hp]
    · simp [hg]
  have hgI : ((distribute_internalize scan st i).store s).graph_important = false := by
    rw [hstS]; exact hgi
  have hssI : ((distribute_internalize scan st i).store s).source = some s2 := by
    rw [hstS]; exact hss
  obtain ⟨hsc, hmp⟩ := promote_requeue_scope_mp scan _ i s s2 h1 hcI hgI hssI
  rw [hstS] at hmp
  rw [hscope2] at hsc
  refine ⟨?_, ?_, ?_⟩
  · rw [distribute_event_store scan st i s hs s, hsc]
  · intro hpos hwl
    have hnc : nerfCond scan
        { (if decide ((st.store s).scope_distance ≤ scan.scope_report_distance) then
             { st.store s with internal := false }
           else st.store s) with graph_important := true } = true := by
      simp only [nerfCond, hwl]
      split <;> simp [hpos]
    rw [distribute_event_store scan st i s hs s, hmp, if_pos hnc]
  · intro hneg
    have hnc : nerfCond scan
        { (if decide ((st.store s).scope_distance ≤ scan.scope_report_distance) then
             { st.store s with internal := false }
           else st.store s) with graph_important := true } = false := by
      simp only [nerfCond]
      split <;> simp [hneg]
    have hnc' : ¬ (nerfCond scan
        { (if decide ((st.store s).scope_distance ≤ scan.scope_report_distance) then
             { st.store s with internal := false }
           else st.store s) with graph_important := true } = true) := by
      rw [hnc]
      decide
    rw [distribute_event_store scan st i s hs s, hmp, if_neg hnc']

def scanW10 : Scan :=
  { modules := [], scope_report_distance := 0
  , whitelisted := fun _ => false, blacklisted := fun _ => false }

def srcW10 : Event :=
  { baseEvent with
      typ := "SCAN", data := "root", source := some 0, internal := true,
      scope_distance := 3 }

def evW10 : Event :=
  { baseEvent with
      data := "y.evilcorp.com", source := some 0, scope_distance := 5,
      graph_important := true }

def stW10 : ManagerState := emptyState (fun k => if k = 0 then srcW10 else evW10)

/-- C10 witness: the promoted ancestor 0 (its own source, at scope 3, out of
scope, not whitelisted) is re-queued by promotion: `queue_event` bumps its
`module_priority` by 3 and overwrites its `scope_distance` to 3 + 1. -/
theorem c10_requeue_frame_effect_witness :
    ((distribute_event scanW10 stW10 1).store 0).scope_distance = 4 ∧
    ((distribute_event scanW10 stW10 1).store 0).module_priority = 3 := by
  have h := c10_requeue_frame_effect scanW10 stW10 1 0 0 (by decide) (by decide) (by decide)
    (Or.inr (by decide)) (by decide) (by decide)
  constructor
  · rw [h.1]; decide
  · rw [h.2.1 (by decide) (by decide)]; decide

theorem distribute_event_deliveries (scan : Scan) (st : ManagerState) (i s : Nat)
    (hs : (st.store i).source = some s)
    (hnr : promote_raises (distribute_internalize scan st i) i = false) :
    (distribute_event scan st i).deliveries =
      (distribute_promote scan (distribute_internalize scan st i) i).deliveries ++
        (scan.modules.filter
          (fanoutPred
            (decide ((((distribute_promote scan (distribute_internalize scan st i) i).store i).typ,
                ((distribute_promote scan (distribute_internalize scan st i) i).store i).data)
              ∈ (distribute_promote scan (distribute_internalize scan st i) i).outgoing_dup_tracker))
            ((distribute_promote scan (distribute_internalize scan st i) i).store i))).map
          (fun m => (m.name, i)) := by
  rw [distribute_event_eq scan st i s hs hnr]
  simp only [deliverAll_spec]
  split <;> rfl

/-- C7: the fan-out step of `distribute_event` (manager.py lines 306-314),
for events that reach it: the source is set, and the ancestor-promotion step
does not raise (a promotion re-queue of a source whose own `source` is
`None` raises `AttributeError` at line 397, which the `_acatch` at line 278
swallows, skipping the fan-out altogether).  Hook modules never receive the
event; each non-hook module receives the event (in module-map order) if and
only if the event is not a scan-global duplicate (its canonical identity is
not in the outgoing tracker), or the module has `accept_dupes`, or the
module's `_is_graph_important` returns true for the event as distributed. -/
theorem c7_fanout_spec (scan : Scan) (st : ManagerState) (i s : Nat)
    (hs : (st.store i).source = some s)
    (hnr : promote_raises (distribute_internalize scan st i) i = false) :
    (distribute_event scan st i).deliveries =
      st.deliveries ++
        (scan.modules.filter
          (fanoutPred
            (decide (((st.store i).typ, (st.store i).data) ∈ st.outgoing_dup_tracker))
            ((distribute_event scan st i).store i))).map (fun m => (m.name, i)) := by
  have htyp : ((distribute_promote scan (distribute_internalize scan st i) i).store i).typ
      = (st.store i).typ := by
    rw [(promote_identity scan _ i i).1, internalize_store_self]
  have hdata : ((distribute_promote scan (distribute_internalize scan st i) i).store i).data
      = (st.store i).data := by
    rw [(promote_identity scan _ i i).2.1, internalize_store_self]
  have htr : (distribute_promote scan (distribute_internalize scan st i) i).outgoing_dup_tracker
      = st.outgoing_dup_tracker := by
    rw [(promote_frame scan _ i).2.1, (internalize_frame scan st i).2.1]
  have hdel : (distribute_promote scan (distribute_internalize scan st i) i).deliveries
      = st.deliveries := by
    rw [(promote_frame scan _ i).2.2.1, (internalize_frame scan st i).2.2.2.1]
  have hstore : (distribute_event scan st i).store i
      = (distribute_promote scan (distribute_internalize scan st i) i).store i :=
    distribute_event_store scan st i s hs i
  rw [distribute_event_deliveries scan st i s hs hnr, hdel, htyp, hdata, htr, ← hstore]

def modW7h : ScanModule :=
  { name := "mh", priority := 1, hook := true, suppress_dupes := none
  , accept_dupes := true, outgoing_dedup_hash := none
  , is_graph_important := fun _ => true }

def modW7a : ScanModule :=
  { name := "ma", priority := 2, hook := false, suppress_dupes := none
  , accept_dupes := true, outgoing_dedup_hash := none
  , is_graph_important := fun _ => false }

def modW7g : ScanModule :=
  { name := "mg", priority := 3, hook := false, suppress_dupes := none
  , accept_dupes := false, outgoing_dedup_hash := none
  , is_graph_important := fun e => e.graph_important }

def modW7p : ScanModule :=
  { name := "mp", priority := 4, hook := false, suppress_dupes := none
  , accept_dupes := false, outgoing_dedup_hash := none
  , is_graph_important := fun _ => false }

def scanW7 : Scan :=
  { modules := [modW7h, modW7a, modW7g, modW7p], scope_report_distance := 1
  , whitelisted := fun _ => false, blacklisted := fun _ => false }

def evW7 : Event :=
  { baseEvent with
      data := "evilcorp.com", source := some 0, graph_important := true }

def stW7 : ManagerState :=
  { store := fun k => if k = 0 then rootC1 else evW7
  , incoming_dup_tracker := []
  , outgoing_dup_tracker := [("DNS_NAME", "evilcorp.com")]
  , incoming_event_queue := [], deliveries := [], word_cloud := [] }

/-- C7 witness: event 1 is a scan-global duplicate; the hook module gets
nothing, the `accept_dupes` module and the graph-important module receive it,
the plain module does not. -/
theorem c7_fanout_spec_witness :
    (distribute_event scanW7 stW7 1).deliveries = [("ma", 1), ("mg", 1)] := by
  rw [c7_fanout_spec scanW7 stW7 1 0 (by decide) (by decide)]
  rfl

/-- C6: `ScanManager.queue_event` (manager.py lines 389-398).  For every
event with a source: if its `scope_distance` is greater than 0 and it is not
both whitelisted and un-blacklisted, its `module_priority` is increased by
its (pre-update) `scope_distance`; then its `scope_distance` is overwritten
with its source's `scope_distance + 1`; then the event is appended to the
shared ingress queue. -/
theorem c6_queue_event_spec (scan : Scan) (st : ManagerState) (i s : Nat)
    (hs : (st.store i).source = some s) :
    ((queue_event scan st i).store i).scope_distance = (st.store s).scope_distance + 1 ∧
    ((queue_event scan st i).store i).module_priority =
      (if decide (0 < (st.store i).scope_distance)
          && !(scan.whitelisted (st.store i) && !scan.blacklisted (st.store i)) then
        (st.store i).module_priority + (st.store i).scope_distance
      else (st.store i).module_priority) ∧
    (queue_event scan st i).incoming_event_queue = st.incoming_event_queue ++ [i] := by
  refine ⟨?_, ?_, queue_event_queue_some scan st i s hs⟩
  · rw [queue_event_store_self scan st i s hs]
  · rw [queue_event_store_self scan st i s hs]
    simp only [nerfCond]
    split <;> rfl

def scanW6 : Scan :=
  { modules := [], scope_report_distance := 1
  , whitelisted := fun _ => false, blacklisted := fun _ => false }

def evW6 : Event :=
  { baseEvent with
      data := "w6.evilcorp.com", source := some 0, scope_distance := 2,
      module_priority := 1 }

def stW6 : ManagerState := emptyState (fun k => if k = 0 then rootC1 else evW6)

/-- C6 witness: event 1 (scope 2, out of scope, not whitelisted, priority 1)
queued via `queue_event`: priority becomes 1 + 2, scope becomes the root's
0 + 1, and the event lands on the shared ingress. -/
theorem c6_queue_event_spec_witness :
    ((queue_event scanW6 stW6 1).store 1).scope_distance = 1 ∧
    ((queue_event scanW6 stW6 1).store 1).module_priority = 3 ∧
    (queue_event scanW6 stW6 1).incoming_event_queue = [1] := by
  have h := c6_queue_event_spec scanW6 stW6 1 0 (by decide)
  refine ⟨?_, ?_, ?_⟩
  · rw [h.1]; decide
  · rw [h.2.1]; decide
  · rw [h.2.2]; decide

/-- C3 (amended): `_event_precheck` returns `false` exactly when the event is
a dummy, or equal (by canonical identity) to its own source, or an incoming
duplicate while not `_graph_important`; graph-important events bypass the
incoming dedup check (and the tracker is untouched for them — manager.py
line 159 returns before the `add=True` call); and whenever the precheck
accepts an event that is NOT graph-important, the event's incoming
fingerprint has been added to the tracker. -/
theorem c3_precheck_characterization (scan : Scan) (st : ManagerState) (i : Nat) :
    ((event_precheck scan st i).1 = false ↔
      ((st.store i).dummy = true ∨ sameIdentityAsSource st (st.store i) = true ∨
        ((st.store i).graph_important = false ∧
         (is_incoming_duplicate scan st i true).1 = true))) ∧
    ((st.store i).graph_important = true → (st.store i).dummy = false →
      sameIdentityAsSource st (st.store i) = false →
      (event_precheck scan st i).1 = true ∧ (event_precheck scan st i).2 = st) ∧
    ((event_precheck scan st i).1 = true → (st.store i).graph_important = false →
      (event_precheck scan st i).2.incoming_dup_tracker
        = incomingFingerprint scan (st.store i) :: st.incoming_dup_tracker) := by
  by_cases hd : (st.store i).dummy = true
  · refine ⟨?_, ?_, ?_⟩
    · simp [event_precheck, getEvent, hd]
    · intro _ hd' _
      exact absurd hd (by simp [hd'])
    · intro h1 _
      simp [event_precheck, getEvent, hd] at h1
  · simp only [Bool.not_eq_true] at hd
    by_cases hsm : sameIdentityAsSource st (st.store i) = true
    · refine ⟨?_, ?_, ?_⟩
      · simp [event_precheck, getEvent, hd, hsm]
      · intro _ _ hsm'
        exact absurd hsm (by simp [hsm'])
      · intro h1 _
        simp [event_precheck, getEvent, hd, hsm] at h1
    · simp only [Bool.not_eq_true] at hsm
      by_cases hg : (st.store i).graph_important = true
      · refine ⟨?_, ?_, ?_⟩
        · simp [event_precheck, getEvent, hd, hsm, hg]
        · intro _ _ _
          constructor
          · simp [event_precheck, getEvent, hd, hsm, hg]
          · simp [event_precheck, getEvent, hd, hsm, hg]
        · intro _ hg'
          exact absurd hg (by simp [hg'])
      · simp only [Bool.not_eq_true] at hg
        by_cases hdup : (is_incoming_duplicate scan st i true).1 = true
        · refine ⟨?_, ?_, ?_⟩
          · simp [event_precheck, getEvent, hd, hsm, hg, hdup]
          · intro hg' _ _
            exact absurd hg' (by simp [hg])
          · intro h1 _
            simp [event_precheck, getEvent, hd, hsm, hg, hdup] at h1
        · simp only [Bool.not_eq_true] at hdup
          refine ⟨?_, ?_, ?_⟩
          · simp [event_precheck, getEvent, hd, hsm, hg, hdup]
          · intro hg' _ _
            exact absurd hg' (by simp [hg])
          · intro _ _
            simp only [event_precheck, getEvent, hd, hsm, hg, hdup, is_incoming_duplicate,
              Bool.false_eq_true, if_false]
            split <;> rfl

/-- C3 witness: a fresh, non-graph-important event is accepted by the
precheck and its incoming fingerprint is recorded as a side effect. -/
theorem c3_precheck_characterization_witness :
    (event_precheck scanC1 stC1 1).1 = true ∧
    (event_precheck scanC1 stC1 1).2.incoming_dup_tracker
      = [incomingFingerprint scanC1 (stC1.store 1)] := by
  have h := c3_precheck_characterization scanC1 stC1 1
  have hr : ¬ ((stC1.store 1).dummy = true ∨
      sameIdentityAsSource stC1 (stC1.store 1) = true ∨
      ((stC1.store 1).graph_important = false ∧
       (is_incoming_duplicate scanC1 stC1 1 true).1 = true)) := by
    decide
  have h1 : (event_precheck scanC1 stC1 1).1 = true := by
    rcases Bool.eq_false_or_eq_true (event_precheck scanC1 stC1 1).1 with ht | hf
    · exact ht
    · exact absurd (h.1.mp hf) hr
  exact ⟨h1, h.2.2 h1 (by decide)⟩

theorem distribute_event_incoming_tracker (scan : Scan) (st : ManagerState) (i : Nat) :
    (distribute_event scan st i).incoming_dup_tracker = st.incoming_dup_tracker := by
  cases hsrc : ((distribute_internalize scan st i).store i).source with
  | none =>
    simp only [distribute_event, getEvent, hsrc]
    exact (internalize_frame scan st i).1
  | some s =>
    have hsrc' : (st.store i).source = some s := by
      rw [internalize_store_self] at hsrc
      exact hsrc
    have h2 : (distribute_promote scan (distribute_internalize scan st i) i).incoming_dup_tracker
        = st.incoming_dup_tracker := by
      rw [(promote_frame scan _ i).1, (internalize_frame scan st i).1]
    by_cases hr : promote_raises (distribute_internalize scan st i) i = true
    · rw [distribute_event_raised scan st i s hsrc' hr]
      exact h2
    · simp only [Bool.not_eq_true] at hr
      rw [distribute_event_eq scan st i s hsrc' hr]
      simp only [deliverAll_spec]
      split <;> exact h2

theorem emit_slow_incoming_tracker (scan : Scan) (st : ManagerState) (i : Nat)
    (ab : Option AbortRes) (cb : Option (Event → Event)) :
    (emit_event_slow scan st i ab cb).st.incoming_dup_tracker = st.incoming_dup_tracker := by
  simp only [emit_event_slow, getEvent]
  split
  · rfl
  · split
    · split <;> simp [updEvent]
    · split
      · rw [distribute_event_incoming_tracker]
        split <;> simp [updEvent]
      · rw [distribute_event_incoming_tracker]
        split <;> simp [updEvent]

theorem init_step_incoming_tracker (scan : Scan) (root : Nat) (st : ManagerState) (i : Nat) :
    (init_event_step scan root st i).incoming_dup_tracker = st.incoming_dup_tracker := by
  simp only [init_event_step]
  split
  · simp [updEvent]
  · rw [(queue_event_trackers scan _ _).1]
    simp [updEvent]

theorem init_events_incoming_tracker (scan : Scan) (st : ManagerState) (root : Nat)
    (ts : List Nat) :
    (init_events scan st root ts).incoming_dup_tracker = st.incoming_dup_tracker := by
  simp only [init_events]
  generalize (root :: sortByDataLen st ts) = l
  induction l generalizing st with
  | nil => rfl
  | cons a l ih =>
    rw [List.foldl_cons, ih, init_step_incoming_tracker]

/-- C8: `is_incoming_duplicate` returns `true` iff the event's per-producer
fingerprint (the producer's custom `_outgoing_dedup_hash` if it defines one,
otherwise the pair of canonical identity and producer module name) is already
in the incoming tracker AND the producer has `suppress_dupes` (defaulting to
true when absent); and the incoming tracker only ever grows — no dispatcher
operation (the dedup check itself, the precheck, `queue_event`,
`distribute_event`, the slow emit path, or `init_events`) removes an entry. -/
theorem c8_incoming_dedup_spec :
    (∀ (scan : Scan) (st : ManagerState) (i : Nat) (add : Bool),
      ((is_incoming_duplicate scan st i add).1 = true ↔
        (incomingFingerprint scan (st.store i) ∈ st.incoming_dup_tracker ∧
         suppressDupes scan (st.store i) = true))) ∧
    (∀ (scan : Scan) (st : ManagerState) (i : Nat) (add : Bool),
      st.incoming_dup_tracker ⊆ (is_incoming_duplicate scan st i add).2.incoming_dup_tracker) ∧
    (∀ (scan : Scan) (st : ManagerState) (i : Nat),
      st.incoming_dup_tracker ⊆ (event_precheck scan st i).2.incoming_dup_tracker) ∧
    (∀ (scan : Scan) (st : ManagerState) (i : Nat),
      (queue_event scan st i).incoming_dup_tracker = st.incoming_dup_tracker) ∧
    (∀ (scan : Scan) (st : ManagerState) (i : Nat),
      (distribute_event scan st i).incoming_dup_tracker = st.incoming_dup_tracker) ∧
    (∀ (scan : Scan) (st : ManagerState) (i : Nat) (ab : Option AbortRes)
        (cb : Option (Event → Event)),
      (emit_event_slow scan st i ab cb).st.incoming_dup_tracker = st.incoming_dup_tracker) ∧
    (∀ (scan : Scan) (st : ManagerState) (root : Nat) (ts : List Nat),
      (init_events scan st root ts).incoming_dup_tracker = st.incoming_dup_tracker) := by
  refine ⟨?_, ?_, ?_, fun scan st i => (queue_event_trackers scan st i).1,
    fun scan st i => distribute_event_incoming_tracker scan st i,
    fun scan st i ab cb => emit_slow_incoming_tracker scan st i ab cb,
    fun scan st root ts => init_events_incoming_tracker scan st root ts⟩
  · intro scan st i add
    simp [is_incoming_duplicate, getEvent, and_comm]
  · intro scan st i add
    simp only [is_incoming_duplicate, getEvent]
    split
    · exact fun x hx => List.mem_cons_of_mem _ hx
    · exact fun x hx => hx
  · intro scan st i
    simp only [event_precheck, getEvent]
    split
    · exact fun x hx => hx
    · split
      · exact fun x hx => hx
      · split
        · exact fun x hx => hx
        · split
          · exact fun x hx => List.mem_cons_of_mem _ hx
          · exact fun x hx => List.mem_cons_of_mem _ hx

/-- C8 witness: the characterization and growth facts at a concrete state. -/
theorem c8_incoming_dedup_spec_witness :
    ((is_incoming_duplicate scanC1 stC1 1 false).1 = true ↔
      (incomingFingerprint scanC1 (stC1.store 1) ∈ stC1.incoming_dup_tracker ∧
       suppressDupes scanC1 (stC1.store 1) = true)) ∧
    (queue_event scanC1 stC1 1).incoming_dup_tracker = stC1.incoming_dup_tracker ∧
    (distribute_event scanC1 stC1 1).incoming_dup_tracker = stC1.incoming_dup_tracker :=
  ⟨c8_incoming_dedup_spec.1 scanC1 stC1 1 false,
   c8_incoming_dedup_spec.2.2.2.1 scanC1 stC1 1,
   c8_incoming_dedup_spec.2.2.2.2.1 scanC1 stC1 1⟩

/-- C9: the abort check of the slow emit path (manager.py lines 218-228),
for an event that survives the blacklist gate.  If `abort_if` returns a pair,
the second element is the logged reason and the first element the result; a
truthy result drops the event (nothing is distributed, no module delivery);
a falsy result lets the pipeline continue to distribution; and if `abort_if`
raises, the failure is absorbed by the surrounding `_acatch` and treated as
not vetoing, so distribution happens. -/
theorem c9_abort_if_spec (scan : Scan) (st : ManagerState) (i : Nat)
    (cb : Option (Event → Event))
    (hbl : scan.blacklisted (st.store i) = false)
    (htag : (st.store i).tags.contains "blacklisted" = false) :
    (∀ (b : Bool) (r : String),
      (emit_event_slow scan st i (some (AbortRes.pairv b r)) cb).distributed = !b ∧
      (b = true →
        (emit_event_slow scan st i (some (AbortRes.pairv b r)) cb).abortReason = some r ∧
        (emit_event_slow scan st i (some (AbortRes.pairv b r)) cb).st.deliveries
          = st.deliveries)) ∧
    (∀ b : Bool,
      (emit_event_slow scan st i (some (AbortRes.val b)) cb).distributed = !b) ∧
    (emit_event_slow scan st i (some AbortRes.raises) cb).distributed = true := by
  have htag' : "blacklisted" ∉ (st.store i).tags := by
    simpa using htag
  refine ⟨?_, ?_, ?_⟩
  · intro b r
    cases b with
    | false =>
      refine ⟨?_, fun hb => absurd hb (by decide)⟩
      simp [emit_event_slow, getEvent, hbl, htag']
    | true =>
      refine ⟨?_, fun _ => ⟨?_, ?_⟩⟩
      · simp [emit_event_slow, getEvent, hbl, htag']
      · simp [emit_event_slow, getEvent, hbl, htag']
      · simp only [emit_event_slow, getEvent]
        simp [hbl, htag']
        split <;> simp [updEvent]
  · intro b
    cases b with
    | false => simp [emit_event_slow, getEvent, hbl, htag']
    | true => simp [emit_event_slow, getEvent, hbl, htag']
  · simp [emit_event_slow, getEvent, hbl, htag']

def evW9 : Event :=
  { baseEvent with data := "w9.evilcorp.com", source := some 0 }

def stW9 : ManagerState := emptyState (fun k => if k = 0 then rootC1 else evW9)

/-- C9 witness: `abort_if` returning `(True, "user policy")` drops event 1
with the reason logged; a raising `abort_if` still lets it distribute. -/
theorem c9_abort_if_spec_witness :
    (emit_event_slow scanC1 stW9 1 (some (AbortRes.pairv true "user policy")) none).distributed
      = false ∧
    (emit_event_slow scanC1 stW9 1 (some (AbortRes.pairv true "user policy")) none).abortReason
      = some "user policy" ∧
    (emit_event_slow scanC1 stW9 1 (some AbortRes.raises) none).distributed = true := by
  have h := c9_abort_if_spec scanC1 stW9 1 none (by decide) (by decide)
  refine ⟨?_, ?_, h.2.2⟩
  · rw [(h.1 true "user policy").1]
    decide
  · exact ((h.1 true "user policy").2 rfl).1
